import Mathlib

/-!
Verification development for the merchant scoring-and-simulation engine
(`src/utils/scoring.py`, `src/utils/simulation.py`, `src/utils/calculations.py`).

Modelling conventions:
* Python floats are embedded as exact rationals `ℚ`.  The pandas `.round(k)`
  operation is embedded as rounding to `k` decimal places over `ℚ`
  (`round2` / `round6` below); binary floating-point representation error has
  no counterpart in `ℚ`, and no claim below exercises an exact half-way tie
  of the rounding function.
* A pandas `DataFrame` is embedded as a list of named columns of cells, where
  a cell holds either a rational or a string.  Column access on a missing
  column name is a `KeyError` in pandas; it is embedded as `Except.error`
  carrying the offending column name.
* `scipy.stats.percentileofscore(arr, v, kind="rank")` is embedded directly
  from its formula: with `left` the number of entries of `arr` strictly
  below `v` and `right` the number of entries at most `v`, the result
  (in percent) is `(left + right + (1 if left < right else 0)) * (50 / len(arr))`.
* `st.session_state` enters `run_simulation` only through the eight slider
  keys; they are embedded as the explicit `SimParams` record (stored, as in
  the session state, in percentage-point format and divided by 100 inside
  the simulation).  A `Tier` string other than S, A, B, C maps to NaN under
  `Series.map(dict)`; this is embedded by making the per-row simulation
  return `Option`, with `none` for the NaN row.
-/

/-- Cell of an embedded dataframe: a rational number or a string. -/
inductive Cell where
  | num (q : ℚ)
  | str (s : String)
deriving DecidableEq

/-- Embedded pandas DataFrame: named columns of cells. -/
structure DataFrame where
  cols : List (String × List Cell)
deriving DecidableEq

/-- Membership test for a column name (`name in df.columns`). -/
def DataFrame.hasCol (df : DataFrame) (name : String) : Bool :=
  df.cols.any (fun c => c.fst == name)

/-- Column lookup by name (`df[name]`), `none` when absent. -/
def DataFrame.getCol (df : DataFrame) (name : String) : Option (List Cell) :=
  (df.cols.find? (fun c => c.fst == name)).map Prod.snd

/-- Column assignment (`df[name] = cells`): replaces an existing column of
that name, otherwise appends a new column. -/
def DataFrame.setCol (df : DataFrame) (name : String) (cells : List Cell) : DataFrame :=
  if df.hasCol name then
    ⟨df.cols.map (fun c => if c.fst == name then (name, cells) else c)⟩
  else
    ⟨df.cols ++ [(name, cells)]⟩

/-- Numeric view of a cell. -/
def Cell.toNum : Cell → Option ℚ
  | .num q => some q
  | .str _ => none

/-- Numeric view of a whole column (`none` if any cell is non-numeric). -/
def numColumn (cells : List Cell) : Option (List ℚ) :=
  cells.mapM Cell.toNum

/-- Access a numeric column: a missing column raises `KeyError(name)` in
pandas, and non-numeric content fails the numeric operations applied to it;
both are embedded as an error naming the column. -/
def getNumCol (df : DataFrame) (name : String) : Except String (List ℚ) :=
  match df.getCol name with
  | none => .error name
  | some cells =>
    match numColumn cells with
    | none => .error name
    | some qs => .ok qs

/-- Round to 2 decimal places (pandas `.round(2)` over the `ℚ` embedding). -/
def round2 (q : ℚ) : ℚ := (round (q * 100) : ℤ) / 100

/-- Round to 6 decimal places (pandas `.round(6)` over the `ℚ` embedding). -/
def round6 (q : ℚ) : ℚ := (round (q * 1000000) : ℤ) / 1000000

/-- Embedding of `scipy.stats.percentileofscore(arr, v, kind="rank")`
(result in percent): `(left + right + plus1) * (50 / n)` where
`left` counts strict lower values, `right` counts values `≤ v`, and
`plus1` is 1 when `left < right`. -/
def percentileofscore (arr : List ℚ) (v : ℚ) : ℚ :=
  let left : ℕ := arr.countP (fun x => decide (x < v))
  let right : ℕ := arr.countP (fun x => decide (x ≤ v))
  let plus1 : ℕ := if left < right then 1 else 0
  ((left : ℚ) + (right : ℚ) + (plus1 : ℚ)) * (50 / (arr.length : ℚ))

/-- Embedding of `scoring._prank`: per-element `percentileofscore / 100`. -/
def _prank (arr : List ℚ) : List ℚ :=
  arr.map (fun v => percentileofscore arr v / 100)

/-- Embedding of `scoring.calculate_volume_score` on the
`Annualized Trips` column: `(_prank(trips) * 35).round(2)`. -/
def calculate_volume_score (trips : List ℚ) : List ℚ :=
  (_prank trips).map (fun p => round2 (p * 35))

/-- Embedding of `scoring.calculate_wait_time_score`:
`((1 - _prank(wait)) * 18).round(2)`. -/
def calculate_wait_time_score (waits : List ℚ) : List ℚ :=
  (_prank waits).map (fun p => round2 ((1 - p) * 18))

/-- Embedding of `scoring.calculate_defect_score`:
`((1 - _prank(defect)) * 12).round(2)`. -/
def calculate_defect_score (defects : List ℚ) : List ℚ :=
  (_prank defects).map (fun p => round2 ((1 - p) * 12))

/-- Embedding of `scoring.calculate_economics_score`:
`(_prank(basket * fee) * 35).round(2)`. -/
def calculate_economics_score (baskets fees : List ℚ) : List ℚ :=
  (_prank (List.zipWith (fun b f => b * f) baskets fees)).map (fun p => round2 (p * 35))

/-- Embedding of the total in `scoring.calculate_ops_quality_score`:
`(wait_score + defect_score).round(2)`. -/
def calculate_ops_quality_score (waits defects : List ℚ) : List ℚ :=
  List.zipWith (fun w d => round2 (w + d))
    (calculate_wait_time_score waits) (calculate_defect_score defects)

/-- Embedding of the `Total_Score` column of `scoring.calculate_total_score`:
`(Volume_Score + Ops_Quality_Score + Economics_Score).round(2)`. -/
def total_score_col (trips waits defects baskets fees : List ℚ) : List ℚ :=
  (List.zipWith (fun vo e => vo + e)
    (List.zipWith (fun v o => v + o)
      (calculate_volume_score trips)
      (calculate_ops_quality_score waits defects))
    (calculate_economics_score baskets fees)).map round2

/-- Embedding of `Series.rank(ascending=False, method="min").astype(int)`
(standard competition ranking, descending): the rank of a score `s` is one
plus the number of strictly greater scores in the column. -/
def pandas_rank_desc_min (scores : List ℚ) : List ℕ :=
  scores.map (fun s => 1 + scores.countP (fun x => decide (s < x)))

/-- Embedding of `scoring.calculate_total_score._tier`. -/
def _tier (rank : ℕ) : String :=
  if rank ≤ 10 then "S"
  else if rank ≤ 50 then "A"
  else if rank ≤ 150 then "B"
  else "C"

/-- Embedding of `scoring.calculate_total_score`: pass-through when both
`Total_Score` and `Tier` columns are present, otherwise the from-scratch
PERCENTRANK pipeline, reading the five raw metric columns in the order the
source accesses them and appending the derived columns. -/
def calculate_total_score (df : DataFrame) : Except String DataFrame := do
  if df.hasCol "Total_Score" && df.hasCol "Tier" then
    return df
  let trips ← getNumCol df "Annualized Trips"
  let waits ← getNumCol df "Avg. Courier Wait Time (min)"
  let defects ← getNumCol df "Order Defect Rate"
  let baskets ← getNumCol df "Avg. Basket Size"
  let fees ← getNumCol df "Marketplace Fee"
  let volume := calculate_volume_score trips
  let waitS := calculate_wait_time_score waits
  let defectS := calculate_defect_score defects
  let ops := calculate_ops_quality_score waits defects
  let econ := calculate_economics_score baskets fees
  let total := total_score_col trips waits defects baskets fees
  let ranks := pandas_rank_desc_min total
  let tiers := ranks.map _tier
  return ((((((((df.setCol "Volume_Score" (volume.map Cell.num)).setCol
    "Wait_Time_Score" (waitS.map Cell.num)).setCol
    "Defect_Rate_Score" (defectS.map Cell.num)).setCol
    "Ops_Quality_Score" (ops.map Cell.num)).setCol
    "Economics_Score" (econ.map Cell.num)).setCol
    "Total_Score" (total.map Cell.num)).setCol
    "Rank" (ranks.map (fun r => Cell.num (r : ℚ)))).setCol
    "Tier" (tiers.map Cell.str))

/-- Embedding of the revenue formula of `calculations.calculate_current_revenue`
for one account row: `Annualized Trips * Avg. Basket Size * Marketplace Fee`. -/
def calculate_current_revenue_row (trips basket fee : ℚ) : ℚ :=
  trips * basket * fee

/-- Embedding of `simulation.FEE_FLOOR`. -/
def FEE_FLOOR : ℚ := 1/10

/-- Embedding of `simulation.FEE_CAP`. -/
def FEE_CAP : ℚ := 3/10

/-- The eight simulation parameters, in percentage-point format exactly as
stored in the session-state keys read by `simulation.run_simulation`. -/
structure SimParams where
  s_fee_change : ℚ
  a_fee_change : ℚ
  b_fee_change : ℚ
  c_fee_change : ℚ
  s_volume : ℚ
  a_volume : ℚ
  b_volume : ℚ
  c_volume : ℚ
deriving DecidableEq

/-- Embedding of `simulation.SS_DEFAULTS`. -/
def SS_DEFAULTS : SimParams :=
  ⟨-2, -1/2, 2, 3, 20, 10, -5, -15⟩

/-- Embedding of the `tier_fee` dict built by `run_simulation` (values divided
by 100); `Series.map` on a key outside the dict yields NaN, embedded `none`. -/
def tier_fee (p : SimParams) : String → Option ℚ
  | "S" => some (p.s_fee_change / 100)
  | "A" => some (p.a_fee_change / 100)
  | "B" => some (p.b_fee_change / 100)
  | "C" => some (p.c_fee_change / 100)
  | _ => none

/-- Embedding of the `tier_vol` dict built by `run_simulation`. -/
def tier_vol (p : SimParams) : String → Option ℚ
  | "S" => some (p.s_volume / 100)
  | "A" => some (p.a_volume / 100)
  | "B" => some (p.b_volume / 100)
  | "C" => some (p.c_volume / 100)
  | _ => none

/-- One row of the scored input table, with the columns selected by
`run_simulation` into `sim`. -/
structure Account where
  brandName : String
  segment : String
  tier : String
  rank : ℚ
  annualizedTrips : ℚ
  avgBasketSize : ℚ
  marketplaceFee : ℚ
  activeLocations : ℚ
  estimatedAnnualRevenue : ℚ
  targetFeeDefault : ℚ
  newTripsDefault : ℚ
  newRevenueDefault : ℚ
  revenueDeltaDefault : ℚ
deriving DecidableEq

/-- One row of the output table of `run_simulation`: the selected input
columns (`base`) plus the columns the function assigns. -/
structure SimRow where
  base : Account
  currRev : ℚ
  feeChgPp : ℚ
  volLiftPct : ℚ
  feeDir : String
  newFee : ℚ
  feeCapped : Bool
  feeFloored : Bool
  newTrips : ℚ
  newRev : ℚ
  revDelta : ℚ
  revDeltaPct : ℚ
deriving DecidableEq

/-- Per-row embedding of the body of `simulation.run_simulation`:
raw fee = `(Marketplace Fee + tier_fee[Tier]).round(6)`, clamped to
`[FEE_FLOOR, FEE_CAP]`; flags compare the raw rounded fee strictly against
the bounds; revenue uses the clamped fee.  `none` embeds the NaN row arising
from a `Tier` value outside the parameter dicts.  Division by a zero
`Curr Rev` in `Rev Delta %` is embedded by `ℚ` division (yielding 0 where
pandas yields inf/NaN); no claim touches that corner. -/
def simulate_row (p : SimParams) (a : Account) : Option SimRow :=
  match tier_fee p a.tier, tier_vol p a.tier with
  | some fd, some vd =>
    let rawNewFee := round6 (a.marketplaceFee + fd)
    let newFee := max FEE_FLOOR (min FEE_CAP rawNewFee)
    let newTrips := a.annualizedTrips * (1 + vd)
    let newRev := newTrips * a.avgBasketSize * newFee
    some {
      base := a
      currRev := a.estimatedAnnualRevenue
      feeChgPp := fd * 100
      volLiftPct := vd * 100
      feeDir := if 0 < fd then "↑" else if fd < 0 then "↓" else "—"
      newFee := newFee
      feeCapped := decide (FEE_CAP < rawNewFee)
      feeFloored := decide (rawNewFee < FEE_FLOOR)
      newTrips := newTrips
      newRev := newRev
      revDelta := newRev - a.estimatedAnnualRevenue
      revDeltaPct := (newRev - a.estimatedAnnualRevenue) / a.estimatedAnnualRevenue * 100
    }
  | _, _ => none

/-- Embedding of `simulation.run_simulation` over the whole table: the
vectorised column assignments are one independent computation per row. -/
def run_simulation (p : SimParams) (df : List Account) : List (Option SimRow) :=
  df.map (simulate_row p)

/-! Concrete fixtures used by witnesses and counterexamples. -/

/-- Scenario in which every fee delta and every volume delta is 0. -/
def zeroParams : SimParams := ⟨0, 0, 0, 0, 0, 0, 0, 0⟩

/-- Scenario with a C-tier volume delta of minus 150 percentage points,
i.e. a fractional volume delta of minus 1.5. -/
def volCrashParams : SimParams := ⟨0, 0, 0, 0, 0, 0, 0, -150⟩

/-- S-tier account whose stored baseline column agrees with
trips times basket times fee (1000 times 25 times 0.25 = 6250). -/
def sampleAccount : Account where
  brandName := "Acme"
  segment := "Enterprise"
  tier := "S"
  rank := 1
  annualizedTrips := 1000
  avgBasketSize := 25
  marketplaceFee := 1/4
  activeLocations := 30
  estimatedAnnualRevenue := 6250
  targetFeeDefault := 23/100
  newTripsDefault := 1200
  newRevenueDefault := 6900
  revenueDeltaDefault := 650

/-- Row produced for `sampleAccount` under `SS_DEFAULTS`. -/
def sampleRow : SimRow where
  base := sampleAccount
  currRev := 6250
  feeChgPp := -2
  volLiftPct := 20
  feeDir := "↓"
  newFee := 23/100
  feeCapped := false
  feeFloored := false
  newTrips := 1200
  newRev := 6900
  revDelta := 650
  revDeltaPct := 52/5

/-- C-tier account with current fee 0.28, used to exercise the 0.30 cap
(raw proposed fee 0.31 under the default C-tier delta of +3 pp). -/
def capAccount : Account where
  brandName := "CapCo"
  segment := "SMB"
  tier := "C"
  rank := 180
  annualizedTrips := 1000
  avgBasketSize := 25
  marketplaceFee := 28/100
  activeLocations := 3
  estimatedAnnualRevenue := 7000
  targetFeeDefault := 30/100
  newTripsDefault := 850
  newRevenueDefault := 6375
  revenueDeltaDefault := -625

/-- Row produced for `capAccount` under `SS_DEFAULTS`. -/
def capRow : SimRow where
  base := capAccount
  currRev := 7000
  feeChgPp := 3
  volLiftPct := -15
  feeDir := "↑"
  newFee := 3/10
  feeCapped := true
  feeFloored := false
  newTrips := 850
  newRev := 6375
  revDelta := -625
  revDeltaPct := -125/14

/-- C-tier account whose current fee 0.05 lies below the 0.10 floor, with a
baseline column consistent with trips times basket times fee (= 50). -/
def lowFeeAccount : Account where
  brandName := "LowFee"
  segment := "SMB"
  tier := "C"
  rank := 190
  annualizedTrips := 100
  avgBasketSize := 10
  marketplaceFee := 1/20
  activeLocations := 1
  estimatedAnnualRevenue := 50
  targetFeeDefault := 8/100
  newTripsDefault := 85
  newRevenueDefault := 85
  revenueDeltaDefault := 35

/-- B-tier account with an in-range fee (0.25) and a consistent baseline
column, used to witness exact baseline reproduction under zero deltas. -/
def cleanAccount : Account where
  brandName := "Clean"
  segment := "SMB"
  tier := "B"
  rank := 60
  annualizedTrips := 100
  avgBasketSize := 10
  marketplaceFee := 1/4
  activeLocations := 5
  estimatedAnnualRevenue := 250
  targetFeeDefault := 27/100
  newTripsDefault := 95
  newRevenueDefault := 260
  revenueDeltaDefault := 10

/-- Row produced for `cleanAccount` under `zeroParams`. -/
def cleanRow : SimRow where
  base := cleanAccount
  currRev := 250
  feeChgPp := 0
  volLiftPct := 0
  feeDir := "—"
  newFee := 1/4
  feeCapped := false
  feeFloored := false
  newTrips := 100
  newRev := 250
  revDelta := 0
  revDeltaPct := 0

/-- S-tier account whose stored baseline column (999) disagrees with
trips times basket times fee (= 200). -/
def mismatchedAccount : Account where
  brandName := "Mismatch"
  segment := "SMB"
  tier := "S"
  rank := 2
  annualizedTrips := 100
  avgBasketSize := 10
  marketplaceFee := 1/5
  activeLocations := 2
  estimatedAnnualRevenue := 999
  targetFeeDefault := 18/100
  newTripsDefault := 120
  newRevenueDefault := 216
  revenueDeltaDefault := -783

/-- Two-row raw-metric table whose Annualized Trips column holds a negative
value. -/
def negTripsDf : DataFrame :=
  ⟨[("Brand Name", [Cell.str "X", Cell.str "Y"]),
    ("Annualized Trips", [Cell.num (-5), Cell.num 10]),
    ("Avg. Courier Wait Time (min)", [Cell.num 3, Cell.num 4]),
    ("Order Defect Rate", [Cell.num (1/10), Cell.num (2/10)]),
    ("Avg. Basket Size", [Cell.num 20, Cell.num 30]),
    ("Marketplace Fee", [Cell.num (1/4), Cell.num (1/5)])]⟩

/-- Table that lacks the Annualized Trips column. -/
def noTripsDf : DataFrame := ⟨[("Avg. Basket Size", [Cell.num 1])]⟩

/-- Table that already carries Total_Score and Tier columns. -/
def prescoredDf : DataFrame :=
  ⟨[("Total_Score", [Cell.num 50]), ("Tier", [Cell.str "S"]),
    ("Annualized Trips", [Cell.num 7])]⟩

/-- Eleven identical rows: a population of 11 accounts with equal metrics. -/
def elevenEqualDf : DataFrame :=
  ⟨[("Annualized Trips", List.replicate 11 (Cell.num 100)),
    ("Avg. Courier Wait Time (min)", List.replicate 11 (Cell.num 5)),
    ("Order Defect Rate", List.replicate 11 (Cell.num (1/20))),
    ("Avg. Basket Size", List.replicate 11 (Cell.num 20)),
    ("Marketplace Fee", List.replicate 11 (Cell.num (1/4)))]⟩

/-- Three-account metric columns for the ranking witness: the second account
dominates on volume, the first and third are identical. -/
def wTrips : List ℚ := [100, 200, 100]

/-- Wait-time column for the ranking witness (all equal). -/
def wWaits : List ℚ := [5, 5, 5]

/-- Defect-rate column for the ranking witness (all equal). -/
def wDefects : List ℚ := [1/10, 1/10, 1/10]

/-- Basket-size column for the ranking witness (all equal). -/
def wBaskets : List ℚ := [10, 10, 10]

/-- Fee column for the ranking witness (all equal). -/
def wFees : List ℚ := [1/4, 1/4, 1/4]

/-- Rounded total scores of the ranking-witness population. -/
def wScores : List ℚ := total_score_col wTrips wWaits wDefects wBaskets wFees

/-- Competition ranks of the ranking-witness population. -/
def wRanks : List ℕ := pandas_rank_desc_min wScores

/-! Helper lemmas on list counting. -/

/-- A member of the list that fails `p` but satisfies `q`, in the presence of
pointwise monotonicity from `p` to `q`, makes the `p`-count strictly smaller
than the `q`-count. -/
theorem countP_lt_of_mem {α : Type} (p q : α → Bool) :
    ∀ l : List α, (∀ x ∈ l, p x = true → q x = true) →
      ∀ a, a ∈ l → p a = false → q a = true → l.countP p < l.countP q := by
  intro l
  induction l with
  | nil => intro _ a ha; cases ha
  | cons b t ih =>
    intro mono a ha hpa hqa
    rw [List.countP_cons, List.countP_cons]
    have hmono : ∀ x ∈ t, p x = true → q x = true :=
      fun x hx => mono x (List.mem_cons_of_mem _ hx)
    rcases List.mem_cons.mp ha with rfl | hat
    · have hle := List.countP_mono_left hmono
      rw [hpa, hqa]
      simp only [Bool.false_eq_true, if_false, if_true]
      omega
    · have hlt := ih hmono a hat hpa hqa
      have h2 : (if p b = true then 1 else 0) ≤ (if q b = true then 1 else 0) := by
        by_cases hb : p b = true
        · rw [if_pos hb, if_pos (mono b (List.mem_cons_self b t) hb)]
        · rw [if_neg hb]
          exact Nat.zero_le _
      omega

/-- Counting a predicate that splits pointwise into two mutually exclusive
predicates splits the count. -/
theorem countP_split {α : Type} (p q r : α → Bool) :
    ∀ l : List α, (∀ x ∈ l, p x = (q x || r x)) →
      (∀ x ∈ l, ¬(q x = true ∧ r x = true)) →
      l.countP p = l.countP q + l.countP r := by
  intro l
  induction l with
  | nil => intro _ _; rfl
  | cons b t ih =>
    intro hpq hqr
    rw [List.countP_cons, List.countP_cons, List.countP_cons]
    have ht := ih (fun x hx => hpq x (List.mem_cons_of_mem _ hx))
      (fun x hx => hqr x (List.mem_cons_of_mem _ hx))
    have hb := hpq b (List.mem_cons_self b t)
    have hbx := hqr b (List.mem_cons_self b t)
    rw [ht, hb]
    cases hqb : q b <;> cases hrb : r b <;> simp [hqb, hrb] at hbx ⊢ <;> omega

/-- Counts of pointwise equal predicates agree. -/
theorem countP_congr_mem {α : Type} (l : List α) (p q : α → Bool)
    (h : ∀ x ∈ l, p x = q x) : l.countP p = l.countP q := by
  rw [List.countP_eq_length_filter, List.countP_eq_length_filter,
    List.filter_congr h]

/-! Claim C10. -/

/-- C10: when the input table already contains both a Total_Score and a Tier
column, `calculate_total_score` is a pass-through: it returns the table
unchanged and performs no sub-score, rank, or tier recomputation, whatever
the raw metric columns hold. -/
theorem c10_pass_through (df : DataFrame)
    (h1 : df.hasCol "Total_Score" = true) (h2 : df.hasCol "Tier" = true) :
    calculate_total_score df = .ok df := by
  simp [calculate_total_score, h1, h2]
  rfl

/-- Witness for C10 on a concrete pre-scored table. -/
theorem c10_pass_through_witness :
    calculate_total_score prescoredDf = .ok prescoredDf :=
  c10_pass_through prescoredDf (by decide) (by decide)

/-! Claim C9. -/

/-- C9: the simulator is deterministic and stateless: it is a pure function
of the eight-parameter set and the input table, so two runs on equal
parameters and equal tables produce equal output tables. -/
theorem c9_deterministic (p₁ p₂ : SimParams) (df₁ df₂ : List Account)
    (hp : p₁ = p₂) (hdf : df₁ = df₂) :
    run_simulation p₁ df₁ = run_simulation p₂ df₂ := by
  rw [hp, hdf]

/-- Witness for C9 at the default scenario on a one-account table. -/
theorem c9_deterministic_witness :
    run_simulation SS_DEFAULTS [sampleAccount] =
      run_simulation SS_DEFAULTS [sampleAccount] :=
  c9_deterministic SS_DEFAULTS SS_DEFAULTS [sampleAccount] [sampleAccount] rfl rfl

/-! Claim C2. -/

/-- C2: per account the simulator forms the unclamped proposed fee as the
current fee plus the tier fee-delta rounded to 6 decimal places, clamps it
to the closed interval [0.10, 0.30], sets the capped flag iff the rounded
unclamped value is strictly above 0.30 and the floored flag iff it is
strictly below 0.10 (a value exactly at a bound is not flagged, and the two
flags are never both set), and computes proposed revenue from the clamped
fee. -/
theorem c2_fee_clamping (p : SimParams) (a : Account) (fd : ℚ) (r : SimRow)
    (hfd : tier_fee p a.tier = some fd)
    (hr : simulate_row p a = some r) :
    r.newFee = max FEE_FLOOR (min FEE_CAP (round6 (a.marketplaceFee + fd))) ∧
    FEE_FLOOR ≤ r.newFee ∧ r.newFee ≤ FEE_CAP ∧
    (r.feeCapped = true ↔ FEE_CAP < round6 (a.marketplaceFee + fd)) ∧
    (r.feeFloored = true ↔ round6 (a.marketplaceFee + fd) < FEE_FLOOR) ∧
    (round6 (a.marketplaceFee + fd) = FEE_CAP →
      r.feeCapped = false ∧ r.feeFloored = false) ∧
    (round6 (a.marketplaceFee + fd) = FEE_FLOOR →
      r.feeCapped = false ∧ r.feeFloored = false) ∧
    ¬(r.feeCapped = true ∧ r.feeFloored = true) ∧
    r.newRev = r.newTrips * a.avgBasketSize * r.newFee := by
  rcases hv : tier_vol p a.tier with _ | vd
  · simp [simulate_row, hfd, hv] at hr
  · simp only [simulate_row, hfd, hv, Option.some.injEq] at hr
    subst hr
    refine ⟨rfl, le_max_left _ _, ?_, ?_, ?_, ?_, ?_, ?_, rfl⟩
    · exact max_le (by norm_num [FEE_FLOOR, FEE_CAP]) (min_le_left _ _)
    · simp
    · simp
    · intro hcap
      rw [hcap]
      exact ⟨by simp, by norm_num [FEE_FLOOR, FEE_CAP]⟩
    · intro hfloor
      rw [hfloor]
      exact ⟨by norm_num [FEE_FLOOR, FEE_CAP], by simp⟩
    · rintro ⟨h1, h2⟩
      simp only [decide_eq_true_eq] at h1 h2
      have h3 : FEE_CAP < FEE_FLOOR := lt_trans h1 h2
      norm_num [FEE_FLOOR, FEE_CAP] at h3

/-- Witness for C2: under the default scenario, the C-tier account with
current fee 0.28 gets raw proposed fee 0.31, is capped to 0.30 and flagged
capped but not floored. -/
theorem c2_fee_clamping_witness :
    capRow.newFee =
      max FEE_FLOOR (min FEE_CAP (round6 (capAccount.marketplaceFee + 3/100))) ∧
    FEE_FLOOR ≤ capRow.newFee ∧ capRow.newFee ≤ FEE_CAP ∧
    (capRow.feeCapped = true ↔
      FEE_CAP < round6 (capAccount.marketplaceFee + 3/100)) ∧
    (capRow.feeFloored = true ↔
      round6 (capAccount.marketplaceFee + 3/100) < FEE_FLOOR) ∧
    (round6 (capAccount.marketplaceFee + 3/100) = FEE_CAP →
      capRow.feeCapped = false ∧ capRow.feeFloored = false) ∧
    (round6 (capAccount.marketplaceFee + 3/100) = FEE_FLOOR →
      capRow.feeCapped = false ∧ capRow.feeFloored = false) ∧
    ¬(capRow.feeCapped = true ∧ capRow.feeFloored = true) ∧
    capRow.newRev = capRow.newTrips * capAccount.avgBasketSize * capRow.newFee :=
  c2_fee_clamping SS_DEFAULTS capAccount (3/100) capRow rfl
    (by norm_num [simulate_row, tier_fee, tier_vol, SS_DEFAULTS, capAccount,
      capRow, round6, FEE_FLOOR, FEE_CAP])

/-! Claim C5. -/

/-- C5 counterexample: with every fee delta and every volume delta equal to
0, an account whose current fee 0.05 lies below the floor has its proposed
fee clamped to 0.10 and its proposed revenue becomes 100 while its baseline
is 50 — even though its baseline column agrees with trips, basket and fee —
so the all-zero scenario does not reproduce baseline revenue. -/
theorem c5_counterexample :
    (simulate_row zeroParams lowFeeAccount).map SimRow.newRev = some 100 ∧
    (simulate_row zeroParams lowFeeAccount).map SimRow.currRev = some 50 ∧
    lowFeeAccount.estimatedAnnualRevenue =
      calculate_current_revenue_row lowFeeAccount.annualizedTrips
        lowFeeAccount.avgBasketSize lowFeeAccount.marketplaceFee ∧
    (100 : ℚ) ≠ 50 := by
  refine ⟨?_, ?_, ?_, ?_⟩ <;>
    norm_num [simulate_row, tier_fee, tier_vol, zeroParams, lowFeeAccount,
      round6, FEE_FLOOR, FEE_CAP, calculate_current_revenue_row]

/-- C5 amended: with all fee and volume deltas 0, proposed revenue equals
baseline revenue exactly for every account whose stored baseline column
agrees with trips × basket × fee and whose current fee survives 6-decimal
rounding and already lies inside [0.10, 0.30]; outside those conditions the
floor/cap clamp (see the counterexample) or a divergent stored baseline
column breaks exact reproduction. -/
theorem c5_zero_deltas (p : SimParams) (a : Account) (r : SimRow)
    (hf : tier_fee p a.tier = some 0) (hv : tier_vol p a.tier = some 0)
    (hr : simulate_row p a = some r)
    (hbase : a.estimatedAnnualRevenue =
      calculate_current_revenue_row a.annualizedTrips a.avgBasketSize a.marketplaceFee)
    (hround : round6 a.marketplaceFee = a.marketplaceFee)
    (hlo : FEE_FLOOR ≤ a.marketplaceFee) (hhi : a.marketplaceFee ≤ FEE_CAP) :
    r.newRev = r.currRev := by
  simp only [simulate_row, hf, hv, Option.some.injEq] at hr
  subst hr
  simp only [add_zero, hround]
  rw [min_eq_right hhi, max_eq_right hlo, hbase]
  simp [calculate_current_revenue_row]

/-- Witness for C5 (amended) on an in-range account under the all-zero
scenario. -/
theorem c5_zero_deltas_witness : cleanRow.newRev = cleanRow.currRev :=
  c5_zero_deltas zeroParams cleanAccount cleanRow
    (by norm_num [tier_fee, zeroParams, cleanAccount])
    (by norm_num [tier_vol, zeroParams, cleanAccount])
    (by norm_num [simulate_row, tier_fee, tier_vol, zeroParams, cleanAccount,
      cleanRow, round6, FEE_FLOOR, FEE_CAP])
    (by norm_num [cleanAccount, calculate_current_revenue_row])
    (by norm_num [cleanAccount, round6])
    (by norm_num [cleanAccount, FEE_FLOOR])
    (by norm_num [cleanAccount, FEE_CAP])

/-! Claim C6. -/

/-- C6 counterexample: the baseline (Curr Rev) used by the simulator is
copied from the precomputed Estimated_Annual_Revenue input column, not
recomputed from the three stored inputs: on an account whose column holds
999 while trips × basket × fee = 200, the simulator uses 999. -/
theorem c6_counterexample :
    (simulate_row SS_DEFAULTS mismatchedAccount).map SimRow.currRev = some 999 ∧
    calculate_current_revenue_row mismatchedAccount.annualizedTrips
      mismatchedAccount.avgBasketSize mismatchedAccount.marketplaceFee = 200 ∧
    (999 : ℚ) ≠ 200 := by
  refine ⟨?_, ?_, ?_⟩ <;>
    norm_num [simulate_row, tier_fee, tier_vol, SS_DEFAULTS, mismatchedAccount,
      round6, FEE_FLOOR, FEE_CAP, calculate_current_revenue_row]

/-- C6 amended: the baseline revenue used by the simulator is read from the
stored Estimated_Annual_Revenue column, and therefore equals
order_volume × avg_order_value × current_fee_rate exactly when that stored
column does. -/
theorem c6_baseline_from_column (p : SimParams) (a : Account) (r : SimRow)
    (hr : simulate_row p a = some r) :
    r.currRev = a.estimatedAnnualRevenue ∧
    (a.estimatedAnnualRevenue =
        calculate_current_revenue_row a.annualizedTrips a.avgBasketSize
          a.marketplaceFee →
      r.currRev =
        calculate_current_revenue_row a.annualizedTrips a.avgBasketSize
          a.marketplaceFee) := by
  rcases hf : tier_fee p a.tier with _ | fd
  · simp [simulate_row, hf] at hr
  rcases hv : tier_vol p a.tier with _ | vd
  · simp [simulate_row, hf, hv] at hr
  simp only [simulate_row, hf, hv, Option.some.injEq] at hr
  subst hr
  exact ⟨rfl, fun h => h⟩

/-- Witness for C6 (amended) on the default scenario. -/
theorem c6_baseline_from_column_witness :
    sampleRow.currRev = sampleAccount.estimatedAnnualRevenue ∧
    (sampleAccount.estimatedAnnualRevenue =
        calculate_current_revenue_row sampleAccount.annualizedTrips
          sampleAccount.avgBasketSize sampleAccount.marketplaceFee →
      sampleRow.currRev =
        calculate_current_revenue_row sampleAccount.annualizedTrips
          sampleAccount.avgBasketSize sampleAccount.marketplaceFee) :=
  c6_baseline_from_column SS_DEFAULTS sampleAccount sampleRow
    (by norm_num [simulate_row, tier_fee, tier_vol, SS_DEFAULTS, sampleAccount,
      sampleRow, round6, FEE_FLOOR, FEE_CAP])

/-! Claim C8. -/

/-- C8 counterexample: a C-tier volume delta of −150 pp (fractional −1.5,
below −1.0) is accepted without any error: the simulator produces a full
output row whose proposed trips are negative (−500). -/
theorem c8_counterexample :
    (run_simulation volCrashParams [capAccount]).map (Option.map SimRow.newTrips) =
      [some (-500)] ∧
    ((-500 : ℚ) < 0) ∧
    (run_simulation volCrashParams [capAccount]).all Option.isSome = true := by
  refine ⟨?_, by norm_num, ?_⟩ <;>
    norm_num [run_simulation, simulate_row, tier_fee, tier_vol, volCrashParams,
      capAccount, round6, FEE_FLOOR, FEE_CAP]

/-- C8 amended: the simulator performs no parameter validation at all: for
every parameter set — volume deltas ≤ −1.0 included — and every table whose
Tier labels are among S, A, B, C it returns one result row per account and
never raises an error; the proposed volume is trips × (1 + delta), which for
a delta below −1.0 simply goes negative instead of being rejected. -/
theorem c8_no_validation (p : SimParams) (df : List Account)
    (hvalid : ∀ a ∈ df, a.tier = "S" ∨ a.tier = "A" ∨ a.tier = "B" ∨ a.tier = "C") :
    (run_simulation p df).length = df.length ∧
    (∀ x ∈ run_simulation p df, x.isSome = true) ∧
    (∀ a r vd, simulate_row p a = some r → tier_vol p a.tier = some vd →
      r.newTrips = a.annualizedTrips * (1 + vd)) := by
  refine ⟨List.length_map _ _, ?_, ?_⟩
  · intro x hx
    rcases List.mem_map.mp hx with ⟨a, ha, rfl⟩
    rcases hvalid a ha with h | h | h | h <;>
      simp [simulate_row, tier_fee, tier_vol, h]
  · intro a r vd hr hv
    rcases hf : tier_fee p a.tier with _ | fd
    · simp [simulate_row, hf] at hr
    simp only [simulate_row, hf, hv, Option.some.injEq] at hr
    subst hr
    rfl

/-- Witness for C8 (amended): the −1.5 C-tier volume scenario still yields
one output row per account. -/
theorem c8_no_validation_witness :
    (run_simulation volCrashParams [capAccount]).length = [capAccount].length :=
  (c8_no_validation volCrashParams [capAccount]
    (by intro a ha; simp only [List.mem_singleton] at ha; subst ha; right; right; right; rfl)).1

/-! Claim C1. -/

/-- C1 counterexample: on the all-equal column [5, 5] the percentile-rank
primitive yields 3/4 for each element, not the inclusive-convention value
of 2/2 = 1 that the claim demands. -/
theorem c1_counterexample :
    _prank [(5 : ℚ), 5] = [3/4, 3/4] ∧ ((3 : ℚ)/4) ≠ 1 := by
  refine ⟨?_, by norm_num⟩
  norm_num [_prank, percentileofscore, List.countP_cons, List.countP_nil]

/-- C1 amended: the percentile-rank primitive follows the scipy mean-rank
convention, not the inclusive one: each element v of the column maps to
(|strictly below v| + |at most v| + 1) / (2N), so an all-equal column of
length N maps every element to (N + 1) / (2N) — which is 1 only for N = 1. -/
theorem c1_mean_rank_convention :
    (∀ (arr : List ℚ) (v : ℚ), v ∈ arr →
      percentileofscore arr v / 100 =
        ((arr.countP (fun x => decide (x < v)) : ℚ) +
          (arr.countP (fun x => decide (x ≤ v)) : ℚ) + 1) /
          (2 * (arr.length : ℚ))) ∧
    (∀ (arr : List ℚ) (c : ℚ), arr ≠ [] → (∀ x ∈ arr, x = c) →
      _prank arr =
        arr.map (fun _ => ((arr.length : ℚ) + 1) / (2 * (arr.length : ℚ)))) := by
  constructor
  · intro arr v hv
    have hlt : arr.countP (fun x => decide (x < v)) <
        arr.countP (fun x => decide (x ≤ v)) := by
      refine countP_lt_of_mem _ _ arr ?_ v hv (by simp) (by simp)
      intro x _ hx
      simp only [decide_eq_true_eq] at hx ⊢
      exact le_of_lt hx
    have hne : (arr.length : ℚ) ≠ 0 := by
      have h0 : 0 < arr.length := List.length_pos.mpr (List.ne_nil_of_mem hv)
      exact_mod_cast Nat.pos_iff_ne_zero.mp h0
    simp only [percentileofscore]
    rw [if_pos hlt]
    push_cast
    field_simp
    ring
  · intro arr c hnil hall
    unfold _prank
    apply List.map_congr_left
    intro v hv
    have hvc : v = c := hall v hv
    have h0 : arr.countP (fun x => decide (x < v)) = 0 := by
      rw [List.countP_eq_zero]
      intro x hx
      simp only [decide_eq_true_eq, not_lt]
      rw [hall x hx, hvc]
    have hn : arr.countP (fun x => decide (x ≤ v)) = arr.length := by
      rw [List.countP_eq_length]
      intro x hx
      simp only [decide_eq_true_eq]
      rw [hall x hx, hvc]
    have hp : 0 < arr.length := List.length_pos.mpr hnil
    have hne : (arr.length : ℚ) ≠ 0 := by
      exact_mod_cast Nat.pos_iff_ne_zero.mp hp
    simp only [percentileofscore, h0, hn]
    rw [if_pos hp]
    push_cast
    field_simp
    ring

/-- Witness for C1 (amended): the member formula at the column [1, 2] with
v = 1, and the all-equal formula at the column [7, 7]. -/
theorem c1_mean_rank_convention_witness :
    (percentileofscore [(1 : ℚ), 2] 1 / 100 =
      (([(1 : ℚ), 2].countP (fun x => decide (x < 1)) : ℚ) +
        ([(1 : ℚ), 2].countP (fun x => decide (x ≤ 1)) : ℚ) + 1) /
        (2 * (([(1 : ℚ), 2].length : ℕ) : ℚ))) ∧
    _prank [(7 : ℚ), 7] =
      [(7 : ℚ), 7].map (fun _ => ((([(7 : ℚ), 7].length : ℕ) : ℚ) + 1) /
        (2 * (([(7 : ℚ), 7].length : ℕ) : ℚ))) :=
  ⟨c1_mean_rank_convention.1 [(1 : ℚ), 2] 1 (List.mem_cons_self 1 [(2 : ℚ)]),
    c1_mean_rank_convention.2 [(7 : ℚ), 7] 7 (by simp)
      (by intro x hx; simpa using hx)⟩

/-! Claim C7. -/

/-- Absent column names look up to nothing. -/
theorem getCol_eq_none_of_hasCol_false (df : DataFrame) (name : String)
    (h : df.hasCol name = false) : df.getCol name = none := by
  unfold DataFrame.getCol
  have hfind : df.cols.find? (fun c => c.fst == name) = none := by
    rw [List.find?_eq_none]
    intro x hx
    have hni := (List.any_eq_false).mp h x hx
    simpa using hni
  rw [hfind]
  rfl

/-- Scoring succeeds whenever the pass-through test fails and all five
required metric columns resolve to numeric data. -/
theorem calculate_total_score_isOk_aux (df : DataFrame)
    (trips waits defects baskets fees : List ℚ)
    (h1 : (df.hasCol "Total_Score" && df.hasCol "Tier") = false)
    (ht : getNumCol df "Annualized Trips" = .ok trips)
    (hw : getNumCol df "Avg. Courier Wait Time (min)" = .ok waits)
    (hd : getNumCol df "Order Defect Rate" = .ok defects)
    (hb : getNumCol df "Avg. Basket Size" = .ok baskets)
    (hf : getNumCol df "Marketplace Fee" = .ok fees) :
    (calculate_total_score df).isOk = true := by
  simp only [calculate_total_score, h1, ht, hw, hd, hb, hf, Bool.false_eq_true,
    if_false]
  rfl

/-- C7 counterexample: scoring a table whose Annualized Trips column holds a
negative value raises no error: it produces a scored table, and the negative
value enters the percentile ranks as-is (the volume sub-scores of the column
holding −5 and 10 are 17.5 and 35 points). -/
theorem c7_counterexample :
    (calculate_total_score negTripsDf).isOk = true ∧
    negTripsDf.getCol "Annualized Trips" = some [Cell.num (-5), Cell.num 10] ∧
    calculate_volume_score [-5, 10] = [35/2, 35] := by
  refine ⟨calculate_total_score_isOk_aux negTripsDf [-5, 10] [3, 4] [1/10, 2/10]
    [20, 30] [1/4, 1/5] rfl rfl rfl rfl rfl rfl, rfl, ?_⟩
  norm_num [calculate_volume_score, _prank, percentileofscore, round2,
    List.countP_cons, List.countP_nil]

/-- C7 amended: when the Annualized Trips column is absent (and the table is
not in pass-through form) the scoring computation fails with an error naming
that column, mirroring the pandas KeyError; but there is no negative-value
validation: every non-pass-through table whose five required metric columns
are present and numeric is scored successfully, negative values included. -/
theorem c7_missing_column_error_but_no_negative_check :
    (∀ df : DataFrame, (df.hasCol "Total_Score" && df.hasCol "Tier") = false →
      df.hasCol "Annualized Trips" = false →
      calculate_total_score df = .error "Annualized Trips") ∧
    (∀ (df : DataFrame) (trips waits defects baskets fees : List ℚ),
      (df.hasCol "Total_Score" && df.hasCol "Tier") = false →
      getNumCol df "Annualized Trips" = .ok trips →
      getNumCol df "Avg. Courier Wait Time (min)" = .ok waits →
      getNumCol df "Order Defect Rate" = .ok defects →
      getNumCol df "Avg. Basket Size" = .ok baskets →
      getNumCol df "Marketplace Fee" = .ok fees →
      (calculate_total_score df).isOk = true) := by
  constructor
  · intro df h1 h2
    have herr : getNumCol df "Annualized Trips" = .error "Annualized Trips" := by
      unfold getNumCol
      rw [getCol_eq_none_of_hasCol_false df _ h2]
    simp only [calculate_total_score, h1, herr, Bool.false_eq_true, if_false]
    rfl
  · intro df trips waits defects baskets fees h1 ht hw hd hb hf
    exact calculate_total_score_isOk_aux df trips waits defects baskets fees
      h1 ht hw hd hb hf

/-- Witness for C7 (amended): a table missing Annualized Trips errors with
that column name; the table with a negative trips value is scored. -/
theorem c7_missing_column_error_but_no_negative_check_witness :
    calculate_total_score noTripsDf = .error "Annualized Trips" ∧
    (calculate_total_score negTripsDf).isOk = true :=
  ⟨c7_missing_column_error_but_no_negative_check.1 noTripsDf (by rfl) (by rfl),
    c7_missing_column_error_but_no_negative_check.2 negTripsDf
      [-5, 10] [3, 4] [1/10, 2/10] [20, 30] [1/4, 1/5]
      (by rfl) (by rfl) (by rfl) (by rfl) (by rfl) (by rfl)⟩

/-! Claim C3. -/

/-- Length of the ranking-witness score column. -/
theorem wScores_length : wScores.length = 3 := by
  simp [wScores, total_score_col, calculate_volume_score,
    calculate_ops_quality_score, calculate_wait_time_score,
    calculate_defect_score, calculate_economics_score, _prank,
    wTrips, wWaits, wDefects, wBaskets, wFees]

/-- Length of the ranking-witness rank column. -/
theorem wRanks_length : wRanks.length = 3 := by
  simp [wRanks, pandas_rank_desc_min, wScores_length]

/-- Concrete value of the ranking-witness score column. -/
theorem wScores_eq : wScores = [5083/100, 6833/100, 5083/100] := by
  norm_num [wScores, total_score_col, calculate_volume_score,
    calculate_ops_quality_score, calculate_wait_time_score,
    calculate_defect_score, calculate_economics_score, _prank,
    percentileofscore, round2, round_eq, wTrips, wWaits, wDefects, wBaskets,
    wFees, List.countP_cons, List.countP_nil]

/-- C3: the Rank column is standard competition ranking, descending,
computed on the rounded 2-decimal total score: a strictly greater rounded
score gives a strictly smaller rank, equal rounded scores share the same
(lowest) rank number, and the next distinct score after a tie group skips
ahead by the size of the tie group. -/
theorem c3_competition_ranking
    (trips waits defects baskets fees scores : List ℚ) (ranks : List ℕ)
    (_hs : scores = total_score_col trips waits defects baskets fees)
    (hr : ranks = pandas_rank_desc_min scores)
    (i j : ℕ) (hi : i < scores.length) (hj : j < scores.length)
    (hri : i < ranks.length) (hrj : j < ranks.length) :
    (scores[j] < scores[i] → ranks[i] < ranks[j]) ∧
    (scores[i] = scores[j] → ranks[i] = ranks[j]) ∧
    (scores[j] < scores[i] →
      (∀ x ∈ scores, ¬(scores[j] < x ∧ x < scores[i])) →
      ranks[j] = ranks[i] + scores.countP (fun x => decide (x = scores[i]))) := by
  subst hr
  simp only [pandas_rank_desc_min, List.getElem_map]
  refine ⟨?_, ?_, ?_⟩
  · intro hlt
    have hmem : scores[i] ∈ scores := List.getElem_mem hi
    have hcnt := countP_lt_of_mem (fun x => decide (scores[i] < x))
      (fun x => decide (scores[j] < x)) scores
      (fun x _ hx => by
        simp only [decide_eq_true_eq] at hx ⊢
        exact lt_trans hlt hx)
      scores[i] hmem (by simp) (by simpa using hlt)
    omega
  · intro heq
    rw [heq]
  · intro hlt hbetween
    have hsplit := countP_split (fun x => decide (scores[j] < x))
      (fun x => decide (scores[i] < x)) (fun x => decide (x = scores[i])) scores
      (fun x hx => by
        rcases lt_trichotomy x scores[i] with h | h | h
        · have hnot : ¬ scores[j] < x := fun hc => hbetween x hx ⟨hc, h⟩
          simp [hnot, not_lt_of_gt h, ne_of_lt h]
        · subst h
          simp [hlt, lt_irrefl]
        · simp [lt_trans hlt h, h, (ne_of_gt h)])
      (fun x _ => by
        rintro ⟨h1, h2⟩
        simp only [decide_eq_true_eq] at h1 h2
        exact absurd h1 (by rw [h2]; exact lt_irrefl _))
    omega

/-- Witness for C3 on a 3-account population in which the second account
dominates on trip volume and the first and third tie: the dominant account
ranks 1, the tied pair both rank 2, the rank after the dominant account
skipping by its tie-group size 1. -/
theorem c3_competition_ranking_witness :
    wRanks.get ⟨1, by rw [wRanks_length]; omega⟩ <
      wRanks.get ⟨0, by rw [wRanks_length]; omega⟩ ∧
    wRanks.get ⟨0, by rw [wRanks_length]; omega⟩ =
      wRanks.get ⟨2, by rw [wRanks_length]; omega⟩ ∧
    wRanks.get ⟨0, by rw [wRanks_length]; omega⟩ =
      wRanks.get ⟨1, by rw [wRanks_length]; omega⟩ +
        wScores.countP (fun x => decide (x =
          wScores.get ⟨1, by rw [wScores_length]; omega⟩)) := by
  refine ⟨?_, ?_, ?_⟩
  · exact (c3_competition_ranking wTrips wWaits wDefects wBaskets wFees wScores
      wRanks rfl rfl 1 0 (by rw [wScores_length]; omega) (by rw [wScores_length]; omega)
      (by rw [wRanks_length]; omega) (by rw [wRanks_length]; omega)).1
      (by simp only [wScores_eq]; norm_num)
  · exact (c3_competition_ranking wTrips wWaits wDefects wBaskets wFees wScores
      wRanks rfl rfl 0 2 (by rw [wScores_length]; omega) (by rw [wScores_length]; omega)
      (by rw [wRanks_length]; omega) (by rw [wRanks_length]; omega)).2.1
      (by simp only [wScores_eq]; norm_num)
  · exact (c3_competition_ranking wTrips wWaits wDefects wBaskets wFees wScores
      wRanks rfl rfl 1 0 (by rw [wScores_length]; omega) (by rw [wScores_length]; omega)
      (by rw [wRanks_length]; omega) (by rw [wRanks_length]; omega)).2.2
      (by simp only [wScores_eq]; norm_num)
      (by
        simp only [wScores_eq]
        intro x hx
        simp only [List.mem_cons, List.not_mem_nil, or_false] at hx
        rcases hx with rfl | rfl | rfl <;> norm_num)

/-! Claim C4. -/

/-- The S tier is exactly ranks at most 10. -/
theorem tier_eq_S_iff (r : ℕ) : _tier r = "S" ↔ r ≤ 10 := by
  unfold _tier
  split_ifs with h1 h2 h3 <;> simp_all

/-- The A tier is exactly ranks 11 to 50. -/
theorem tier_eq_A_iff (r : ℕ) : _tier r = "A" ↔ 10 < r ∧ r ≤ 50 := by
  unfold _tier
  split_ifs with h1 h2 h3 <;> simp_all

/-- The B tier is exactly ranks 51 to 150. -/
theorem tier_eq_B_iff (r : ℕ) : _tier r = "B" ↔ 50 < r ∧ r ≤ 150 := by
  unfold _tier
  split_ifs with h1 h2 h3 <;> simp_all
  omega

/-- The C tier is exactly ranks above 150. -/
theorem tier_eq_C_iff (r : ℕ) : _tier r = "C" ↔ 150 < r := by
  unfold _tier
  split_ifs with h1 h2 h3 <;> simp_all <;> omega

/-- In a descending-sorted column, at most `i` entries exceed the entry at
index `i`. -/
theorem sorted_countP_lt_le_index (l : List ℚ) (hsort : l.Sorted (· ≥ ·))
    (i : ℕ) (hi : i < l.length) :
    l.countP (fun x => decide (l.get ⟨i, hi⟩ < x)) ≤ i := by
  set a := l.get ⟨i, hi⟩ with ha
  have hsplit : l.countP (fun x => decide (a < x)) =
      (l.take i).countP (fun x => decide (a < x)) +
        (l.drop i).countP (fun x => decide (a < x)) := by
    rw [← List.countP_append, List.take_append_drop]
  have hdrop : (l.drop i).countP (fun x => decide (a < x)) = 0 := by
    rw [List.countP_eq_zero]
    intro y hy
    simp only [decide_eq_true_eq]
    rcases List.mem_iff_get.mp hy with ⟨⟨j, hj⟩, rfl⟩
    have hij : i + j < l.length := by
      have hj2 := hj
      simp only [List.length_drop] at hj2
      omega
    have hget : (l.drop i).get ⟨j, hj⟩ = l.get ⟨i + j, hij⟩ := by
      simp [List.getElem_drop]
    rw [hget]
    have hle : l.get ⟨i + j, hij⟩ ≤ l.get ⟨i, hi⟩ :=
      hsort.rel_get_of_le (Fin.mk_le_mk.mpr (Nat.le_add_right i j))
    rw [ha]
    exact not_lt.mpr hle
  have htake : (l.take i).countP (fun x => decide (a < x)) ≤ i :=
    le_trans (List.countP_le_length _) (by simp [List.length_take])
  omega

/-- At least `min k N` entries of any column of length `N` have competition
rank at most `k`, i.e. fewer than `k` strictly greater entries. -/
theorem min_le_countP_toprank (l : List ℚ) (k : ℕ) :
    min k l.length ≤
      l.countP (fun s => decide (l.countP (fun x => decide (s < x)) < k)) := by
  set l2 := List.insertionSort (· ≥ ·) l with hl2
  have hperm : l2.Perm l := List.perm_insertionSort _ l
  have hsort : l2.Sorted (· ≥ ·) := List.sorted_insertionSort _ l
  have hlen : l2.length = l.length := hperm.length_eq
  rw [← hperm.countP_eq]
  have hinner : ∀ s : ℚ, l.countP (fun x => decide (s < x)) =
      l2.countP (fun x => decide (s < x)) :=
    fun s => (hperm.countP_eq _).symm
  have hkey : ∀ a ∈ l2.take (min k l2.length),
      (fun s => decide (l.countP (fun x => decide (s < x)) < k)) a = true := by
    intro a ha
    rcases List.mem_iff_get.mp ha with ⟨⟨j, hjlen⟩, rfl⟩
    have hjlt : j < min k l2.length := by
      have hj2 := hjlen
      simp only [List.length_take] at hj2
      omega
    have hjl2 : j < l2.length := by omega
    have hget : (l2.take (min k l2.length)).get ⟨j, hjlen⟩ = l2.get ⟨j, hjl2⟩ := by
      simp [List.getElem_take]
    rw [hget]
    simp only [decide_eq_true_eq]
    rw [hinner]
    exact lt_of_le_of_lt (sorted_countP_lt_le_index l2 hsort j hjl2) (by omega)
  have htakelen : (l2.take (min k l2.length)).length = min k l.length := by
    rw [List.length_take, hlen]
    omega
  calc min k l.length = (l2.take (min k l2.length)).countP
        (fun s => decide (l.countP (fun x => decide (s < x)) < k)) := by
        rw [List.countP_eq_length.mpr hkey, htakelen]
    _ ≤ l2.countP (fun s => decide (l.countP (fun x => decide (s < x)) < k)) := by
        conv_rhs => rw [← List.take_append_drop (min k l2.length) l2]
        rw [List.countP_append]
        exact Nat.le_add_right _ _

/-- A list of S/A/B/C labels is fully partitioned by the four labels. -/
theorem countP_four_strings :
    ∀ ts : List String, (∀ t ∈ ts, t = "S" ∨ t = "A" ∨ t = "B" ∨ t = "C") →
      ts.countP (fun t => decide (t = "S")) + ts.countP (fun t => decide (t = "A")) +
        ts.countP (fun t => decide (t = "B")) +
        ts.countP (fun t => decide (t = "C")) = ts.length := by
  intro ts
  induction ts with
  | nil => intro _; rfl
  | cons b t ih =>
    intro h
    have hb := h b (List.mem_cons_self b t)
    have ht := ih (fun x hx => h x (List.mem_cons_of_mem _ hx))
    simp only [List.countP_cons, List.length_cons]
    rcases hb with rfl | rfl | rfl | rfl <;> simp <;> omega

/-- C4: tier is a pure function of rank against the fixed cut lines
(S = ranks 1..10, A = 11..50, B = 51..150, C = beyond 150); for every score
column the four tier counts over the rank-to-tier map sum to the population
size N, and the S-tier holds at least min(10, N) accounts — ties at the
boundary can push the S count above 10, so "at least", not "exactly". -/
theorem c4_tier_partition :
    (∀ r : ℕ, (_tier r = "S" ↔ r ≤ 10) ∧ (_tier r = "A" ↔ 10 < r ∧ r ≤ 50) ∧
      (_tier r = "B" ↔ 50 < r ∧ r ≤ 150) ∧ (_tier r = "C" ↔ 150 < r)) ∧
    (∀ scores : List ℚ,
      (((pandas_rank_desc_min scores).map _tier).countP (fun t => decide (t = "S")) +
        ((pandas_rank_desc_min scores).map _tier).countP (fun t => decide (t = "A")) +
        ((pandas_rank_desc_min scores).map _tier).countP (fun t => decide (t = "B")) +
        ((pandas_rank_desc_min scores).map _tier).countP (fun t => decide (t = "C")) =
        scores.length) ∧
      min 10 scores.length ≤
        ((pandas_rank_desc_min scores).map _tier).countP (fun t => decide (t = "S"))) := by
  constructor
  · intro r
    exact ⟨tier_eq_S_iff r, tier_eq_A_iff r, tier_eq_B_iff r, tier_eq_C_iff r⟩
  · intro scores
    constructor
    · have hlen : ((pandas_rank_desc_min scores).map _tier).length = scores.length := by
        simp [pandas_rank_desc_min]
      rw [← hlen]
      apply countP_four_strings
      intro t ht
      rcases List.mem_map.mp ht with ⟨r, _, rfl⟩
      rcases Nat.lt_or_ge 10 r with h | h
      · rcases Nat.lt_or_ge 50 r with h2 | h2
        · rcases Nat.lt_or_ge 150 r with h3 | h3
          · exact Or.inr (Or.inr (Or.inr ((tier_eq_C_iff r).mpr h3)))
          · exact Or.inr (Or.inr (Or.inl ((tier_eq_B_iff r).mpr ⟨h2, h3⟩)))
        · exact Or.inr (Or.inl ((tier_eq_A_iff r).mpr ⟨h, h2⟩))
      · exact Or.inl ((tier_eq_S_iff r).mpr h)
    · have hmap : ((pandas_rank_desc_min scores).map _tier).countP
          (fun t => decide (t = "S")) =
          scores.countP (fun s =>
            decide (scores.countP (fun x => decide (s < x)) < 10)) := by
        rw [List.countP_map]
        unfold pandas_rank_desc_min
        rw [List.countP_map]
        apply countP_congr_mem
        intro s _
        simp only [Function.comp_apply]
        rw [decide_eq_decide, tier_eq_S_iff]
        omega
      rw [hmap]
      exact min_le_countP_toprank scores 10

/-- C4 counterexample: a population of 11 accounts with identical metrics
yields the all-equal rounded score column replicate 11 51.81, all eleven
accounts receive rank 1 and tier S, so the S-tier holds 11 accounts — not
min(10, 11) = 10 as the claim demands. -/
theorem c4_counterexample :
    total_score_col (List.replicate 11 100) (List.replicate 11 5)
      (List.replicate 11 (1/20)) (List.replicate 11 20)
      (List.replicate 11 (1/4)) = List.replicate 11 (5181/100 : ℚ) ∧
    (pandas_rank_desc_min (List.replicate 11 (5181/100 : ℚ))).map _tier =
      List.replicate 11 "S" ∧
    ((pandas_rank_desc_min (List.replicate 11 (5181/100 : ℚ))).map _tier).countP
      (fun t => decide (t = "S")) = 11 ∧
    (11 : ℕ) ≠ min 10 11 := by
  have hranks : pandas_rank_desc_min (List.replicate 11 (5181/100 : ℚ)) =
      List.replicate 11 1 := by
    unfold pandas_rank_desc_min
    rw [List.map_replicate]
    rw [List.countP_replicate]
    norm_num
  have htiers : (pandas_rank_desc_min (List.replicate 11 (5181/100 : ℚ))).map _tier =
      List.replicate 11 "S" := by
    rw [hranks, List.map_replicate]
    rfl
  refine ⟨?_, htiers, ?_, by omega⟩
  · unfold total_score_col calculate_volume_score calculate_ops_quality_score
      calculate_wait_time_score calculate_defect_score calculate_economics_score
      _prank
    simp only [List.zipWith_replicate', List.map_replicate]
    rw [show percentileofscore (List.replicate 11 (100:ℚ)) 100 =
        (0 + 11 + 1) * (50 / 11) from by
      unfold percentileofscore
      rw [List.countP_replicate, List.countP_replicate]
      norm_num]
    rw [show percentileofscore (List.replicate 11 (5:ℚ)) 5 =
        (0 + 11 + 1) * (50 / 11) from by
      unfold percentileofscore
      rw [List.countP_replicate, List.countP_replicate]
      norm_num]
    rw [show percentileofscore (List.replicate 11 ((1:ℚ)/20)) (1/20) =
        (0 + 11 + 1) * (50 / 11) from by
      unfold percentileofscore
      rw [List.countP_replicate, List.countP_replicate]
      norm_num]
    rw [show percentileofscore (List.replicate 11 ((20:ℚ) * (1/4))) (20 * (1/4)) =
        (0 + 11 + 1) * (50 / 11) from by
      unfold percentileofscore
      rw [List.countP_replicate, List.countP_replicate]
      norm_num]
    norm_num [round2, round_eq]
  · rw [htiers, List.countP_replicate]
    norm_num
